import Mathlib

/-!
# AutoHeal-AI: verification of the incident-correlation and healing-orchestration core

A shallow embedding, in Lean 4, of the core logic of the AutoHeal-AI
repository, together with theorems settling the frozen claims about it.

The embedding covers:

* the Incident Manager's store and event-ingestion routes
  (`services/incident-manager/src/core/incident_store.py`,
  `services/incident-manager/src/api/routes.py`);
* the Decision Maker (`services/autoheal-agent/src/core/decision_maker.py`);
* the OODA Engine and its HTTP-facing admission/control logic
  (`services/autoheal-agent/src/core/ooda_engine.py`,
  `services/autoheal-agent/src/api/routes.py`).

Modelling conventions:

* wall-clock instants (`datetime.utcnow()`) are abstract `Nat` ticks, with the
  configured windows (`window_minutes`, `cooldown_minutes`) measured in the
  same ticks; Python's `datetime` arithmetic never goes negative in the code
  paths modelled here, and `Nat` truncated subtraction coincides with it on
  those paths;
* `uuid.uuid4()` identifiers are modelled by a deterministic fresh counter;
* Python dicts (insertion-ordered) are association lists in insertion order;
* floats are modelled as `ℚ`;
* the network dispatch of one healing action
  (`OODAEngine._execute_action`, which catches every exception and returns a
  Bool) is an oracle parameter `exec : HealingAction → Bool`; the engine
  state additionally carries a ghost `dispatched` log recording every action
  handed to the executor, which no engine operation reads back.
-/

namespace AutoHeal

/-! ## String helpers

Python substring tests (`"pat" in text`) are modelled by an executable
occurrence test on the underlying character lists. -/

/-- Test whether the pattern is an initial segment of the text. -/
def matchesAt : List Char → List Char → Bool
  | [], _ => true
  | _ :: _, [] => false
  | a :: as, b :: bs => a == b && matchesAt as bs

/-- Test whether the pattern occurs as a contiguous segment of the text
(Python's `pat in s` for nonempty `pat`). -/
def occursIn (pat : List Char) : List Char → Bool
  | [] => pat.isEmpty
  | s@(_ :: rest) => matchesAt pat s || occursIn pat rest

/-- Python `pat in s` on strings. -/
def strContains (s pat : String) : Bool := occursIn pat.toList s.toList

/-- Python `str.lower()` (kept as a character-list map so the kernel can
evaluate it on literals). -/
def lowerStr (s : String) : String := String.mk (s.toList.map Char.toLower)

/-- Python `str.upper()`. -/
def upperStr (s : String) : String := String.mk (s.toList.map Char.toUpper)

/-- Python `s.replace(a, b)` for one-character `a`/`b` — the only form the
embedded code uses (`"_"→" "`, `" "→"_"`, `"-"→"_"`). -/
def replaceChar (s : String) (a b : Char) : String :=
  String.mk (s.toList.map (fun c => if c == a then b else c))

/-- Python `str.title()` on one character: uppercase at a word start,
lowercase inside a word; non-alphabetic characters delimit words. -/
def titleChars : Bool → List Char → List Char
  | _, [] => []
  | atStart, c :: rest =>
      if c.isAlpha then
        (if atStart then c.toUpper else c.toLower) :: titleChars false rest
      else c :: titleChars true rest

/-- Python `str.title()`. -/
def pyTitle (s : String) : String := String.mk (titleChars true s.toList)

/-! ## Incident Manager: data model

From `services/incident-manager/src/api/schemas.py`. Only the fields the
correlation logic reads or writes are carried; `title`/`description` are kept
because the routes construct them, `severity` is kept as the parsed enum. -/

/-- Embedding of `IncidentStatus` from `schemas.py`. -/
inductive IncidentStatus where
  | new
  | analyzing
  | healing
  | awaiting_approval
  | resolved
  | failed
deriving DecidableEq, Repr

/-- Embedding of `IncidentSeverity` from `schemas.py`. -/
inductive IncidentSeverity where
  | critical
  | high
  | medium
  | low
deriving DecidableEq, Repr

/-- Embedding of `Incident` from `schemas.py` (fields relevant to correlation). -/
structure Incident where
  incident_id : Nat
  title : String
  description : String
  status : IncidentStatus
  severity : IncidentSeverity
  target_service : String
  target_namespace : String
  created_at : Nat
  updated_at : Nat
  event_ids : List Nat
  event_count : Nat
  root_cause : Option String
  confidence : Option ℚ
  healing_actions : List String
deriving DecidableEq, Repr

/-- Embedding of `AnomalyEventInput` from `schemas.py` (fields the route reads). -/
structure AnomalyEvent where
  event_id : Nat
  anomaly_type : String
  severity : String
  target_service : String
  target_namespace : String
  metric_name : String
  current_value : ℚ
  threshold_value : ℚ
deriving DecidableEq, Repr

/-- Embedding of `LogAnalysisEventInput` from `schemas.py` (fields the route reads). -/
structure LogAnalysisEvent where
  event_id : Nat
  service_name : String
  nspace : String
  error_category : String
  error_count : Nat
  severity : String
  root_cause : String
  confidence : ℚ
  sample_message : String
  recommended_actions : List String
deriving DecidableEq, Repr

/-- Embedding of `IncidentSeverity(event.severity) if event.severity in
IncidentSeverity.__members__.values() else IncidentSeverity.MEDIUM`
(both ingestion routes). -/
def parseSeverity (s : String) : IncidentSeverity :=
  if s == "critical" then .critical
  else if s == "high" then .high
  else if s == "medium" then .medium
  else if s == "low" then .low
  else .medium

/-! ## Incident Store (`incident_store.py`) -/

/-- The match predicate inside `IncidentStore.find_related_incident`:
active (status not resolved/failed), same target, `created_at >= cutoff`. -/
def relatedPred (service nspace : String) (cutoff : Nat) (i : Incident) : Bool :=
  decide (i.status ≠ .resolved) && decide (i.status ≠ .failed)
    && i.target_service == service && i.target_namespace == nspace
    && decide (cutoff ≤ i.created_at)

/-- Embedding of `IncidentStore.find_related_incident`: first active incident for the
target created within the correlation window (`cutoff = now - window`). -/
def find_related_incident (store : List Incident) (service nspace : String)
    (window_minutes now : Nat) : Option Incident :=
  store.find? (relatedPred service nspace (now - window_minutes))

/-- Embedding of `IncidentStore.add_event_to_incident`: append the event id, recompute
`event_count`, restamp `updated_at`. -/
def add_event_to_incident (store : List Incident) (iid : Nat) (eid : Nat)
    (now : Nat) : List Incident :=
  store.map (fun i =>
    if i.incident_id == iid then
      { i with event_ids := i.event_ids ++ [eid],
               event_count := i.event_ids.length + 1,
               updated_at := now }
    else i)

/-- The `IncidentStore.update_incident` call made by the log-analysis route:
overwrite `root_cause`/`confidence`/`healing_actions`, restamp `updated_at`. -/
def update_incident_log_fields (store : List Incident) (iid : Nat)
    (rc : String) (conf : ℚ) (acts : List String) (now : Nat) : List Incident :=
  store.map (fun i =>
    if i.incident_id == iid then
      { i with root_cause := some rc, confidence := some conf,
               healing_actions := acts, updated_at := now }
    else i)

/-! ## Incident Manager ingestion routes (`api/routes.py`) -/

/-- Correlation state: the store plus the fresh-id counter standing in for
`uuid.uuid4()`. -/
structure CorrState where
  store : List Incident
  nextId : Nat
deriving DecidableEq, Repr

/-- Outcome tag of an ingestion route (`"created"` / `"correlated"`). -/
inductive IngestAction where
  | created
  | correlated
deriving DecidableEq, Repr

/-- Result of one ingestion route call. -/
structure IngestResult where
  action : IngestAction
  incident_id : Nat
  state : CorrState
deriving DecidableEq, Repr

/-- Embedding of `receive_anomaly_event` (`incident-manager/src/api/routes.py`): correlate
into an existing open incident for the target, else create a new incident
with status `new`, placeholder root cause and confidence 0.7. -/
def receive_anomaly_event (window_minutes : Nat) (st : CorrState)
    (e : AnomalyEvent) (now : Nat) : IngestResult :=
  match find_related_incident st.store e.target_service e.target_namespace
      window_minutes now with
  | some existing =>
      { action := .correlated,
        incident_id := existing.incident_id,
        state := { st with
          store := add_event_to_incident st.store existing.incident_id
            e.event_id now } }
  | none =>
      let incident : Incident :=
        { incident_id := st.nextId,
          title := pyTitle (replaceChar e.anomaly_type '_' ' ') ++ " on "
            ++ e.target_service,
          description := "Detected " ++ e.anomaly_type ++ ": " ++ e.metric_name
            ++ " = " ++ toString e.current_value ++ " (threshold: "
            ++ toString e.threshold_value ++ ")",
          status := .new,
          severity := parseSeverity e.severity,
          target_service := e.target_service,
          target_namespace := e.target_namespace,
          created_at := now,
          updated_at := now,
          event_ids := [e.event_id],
          event_count := 1,
          root_cause := some ("Possible cause: " ++ e.anomaly_type),
          confidence := some (7/10 : ℚ),
          healing_actions := [] }
      { action := .created,
        incident_id := st.nextId,
        state := { store := st.store ++ [incident], nextId := st.nextId + 1 } }

/-- Embedding of `receive_log_analysis_event` (`incident-manager/src/api/routes.py`):
correlate (appending the event id and overwriting the analysis fields), else
create a new incident with status `analyzing`. -/
def receive_log_analysis_event (window_minutes : Nat) (st : CorrState)
    (e : LogAnalysisEvent) (now : Nat) : IngestResult :=
  match find_related_incident st.store e.service_name e.nspace
      window_minutes now with
  | some existing =>
      let store1 := add_event_to_incident st.store existing.incident_id
        e.event_id now
      let store2 := update_incident_log_fields store1 existing.incident_id
        e.root_cause e.confidence e.recommended_actions now
      { action := .correlated,
        incident_id := existing.incident_id,
        state := { st with store := store2 } }
  | none =>
      let incident : Incident :=
        { incident_id := st.nextId,
          title := pyTitle (replaceChar e.error_category '_' ' ')
            ++ " Error in " ++ e.service_name,
          description := e.sample_message.take 500,
          status := .analyzing,
          severity := parseSeverity e.severity,
          target_service := e.service_name,
          target_namespace := e.nspace,
          created_at := now,
          updated_at := now,
          event_ids := [e.event_id],
          event_count := e.error_count,
          root_cause := some e.root_cause,
          confidence := some e.confidence,
          healing_actions := e.recommended_actions }
      { action := .created,
        incident_id := st.nextId,
        state := { store := st.store ++ [incident], nextId := st.nextId + 1 } }

/-- An incoming signal: either ingestion route. -/
inductive Signal where
  | anomaly (e : AnomalyEvent)
  | logAnalysis (e : LogAnalysisEvent)
deriving DecidableEq, Repr

/-- Target service of a signal. -/
def Signal.service : Signal → String
  | .anomaly e => e.target_service
  | .logAnalysis e => e.service_name

/-- Target namespace of a signal. -/
def Signal.nspace : Signal → String
  | .anomaly e => e.target_namespace
  | .logAnalysis e => e.nspace

/-- Event id of a signal. -/
def Signal.eventId : Signal → Nat
  | .anomaly e => e.event_id
  | .logAnalysis e => e.event_id

/-- Dispatch a signal to its ingestion route. -/
def receiveSignal (window_minutes : Nat) (st : CorrState) (sig : Signal)
    (now : Nat) : IngestResult :=
  match sig with
  | .anomaly e => receive_anomaly_event window_minutes st e now
  | .logAnalysis e => receive_log_analysis_event window_minutes st e now

/-- Run a timed sequence of ingests through the ingestion routes. -/
def ingestAll (window_minutes : Nat) (st : CorrState) :
    List (Signal × Nat) → CorrState
  | [] => st
  | (sig, t) :: rest =>
      ingestAll window_minutes (receiveSignal window_minutes st sig t).state rest

/-- Number of incidents for a target that are non-terminal and created within
the correlation window of `now` — the count of incidents
`find_related_incident` could return. -/
def openWindowCount (st : CorrState) (service nspace : String)
    (window_minutes now : Nat) : Nat :=
  st.store.countP (relatedPred service nspace (now - window_minutes))

/-- Number of incidents for a target that are merely non-terminal
(no window restriction) — the count the single-open-incident claim is about. -/
def openCount (st : CorrState) (service nspace : String) : Nat :=
  st.store.countP (fun i =>
    decide (i.status ≠ .resolved) && decide (i.status ≠ .failed)
      && i.target_service == service && i.target_namespace == nspace)

/-! ## Decision Maker data model

The autoheal agent's `src/api/schemas.py` is not in the source tree; the
shapes below are modelled from the spec (§3 HealingPlan/HealingAction) and
from every field access in `decision_maker.py` and `ooda_engine.py`. -/

/-- Embedding of `ActionType` members, as used by `decision_maker.py` (and listed in the
spec's risk table). -/
inductive ActionType where
  | restart_pod
  | scale_up
  | scale_down
  | rollback
  | circuit_breaker
  | failover
  | rate_limit
  | increase_resources
  | custom
deriving DecidableEq, Repr

/-- A value in an action's `parameters` dict. -/
inductive ParamValue where
  | s (v : String)
  | i (v : Int)
  | q (v : ℚ)
deriving DecidableEq, Repr

/-- Embedding of `HealingAction` (spec §3): one planned remediation step. -/
structure HealingAction where
  action_id : Nat
  action_type : ActionType
  target : String
  parameters : List (String × ParamValue)
  reasoning : String
  risk_level : String
  reversible : Bool
deriving DecidableEq, Repr

/-- Embedding of `HealingPlan` (spec §3): the ordered output of the Decide phase. -/
structure HealingPlan where
  plan_id : Nat
  incident_id : Nat
  observation : String
  orientation : String
  decision : String
  actions : List HealingAction
  estimated_duration_seconds : Nat
  confidence : ℚ
  risk_assessment : String
deriving DecidableEq, Repr

/-! ## Decision Maker (`decision_maker.py`) -/

/-- Embedding of `DecisionMaker.CAUSE_ACTION_MAP`, in source (= dict insertion) order. -/
def CAUSE_ACTION_MAP : List (String × List (ActionType × String)) :=
  [ ("error_rate_spike",
      [(.restart_pod, "Restart problematic pods to clear state"),
       (.scale_up, "Scale up to handle load if needed")]),
    ("latency_spike",
      [(.scale_up, "Scale up to reduce load per instance"),
       (.circuit_breaker, "Enable circuit breaker for slow dependencies")]),
    ("cpu_overload",
      [(.scale_up, "Add more replicas to distribute load"),
       (.increase_resources, "Increase CPU limits if scaling not possible")]),
    ("memory_overload",
      [(.restart_pod, "Restart pods to clear memory"),
       (.increase_resources, "Increase memory limits")]),
    ("pod_crash_loop",
      [(.rollback, "Rollback to previous stable version"),
       (.restart_pod, "Restart with fresh state")]),
    ("connection_error",
      [(.circuit_breaker, "Enable circuit breaker"),
       (.failover, "Failover to healthy instances")]),
    ("timeout",
      [(.scale_up, "Add capacity to reduce latency"),
       (.rate_limit, "Apply rate limiting to prevent overload")]),
    ("out_of_memory",
      [(.restart_pod, "Restart to clear memory state"),
       (.increase_resources, "Increase memory allocation")]),
    ("database",
      [(.restart_pod, "Restart to reset connections"),
       (.failover, "Failover to replica if available")]) ]

/-- Embedding of `DecisionMaker.analyze_incident`: the orientation narrative. -/
def analyze_incident (root_cause : Option String) (severity : String)
    (recommended_actions : List String) : String :=
  let parts1 : List String :=
    match root_cause with
    | some rc =>
        let normalized := replaceChar (replaceChar (lowerStr rc) ' ' '_') '-' '_'
        let known := CAUSE_ACTION_MAP.any (fun p => strContains normalized p.1)
        ["Root cause identified: " ++ rc,
         if known then "Known pattern detected - automated healing available"
         else "Unknown pattern - conservative approach recommended"]
    | none => ["No root cause identified - will attempt general recovery"]
  let sevPart :=
    if severity == "critical" || severity == "high" then
      upperStr severity ++ " severity - immediate action required"
    else
      pyTitle severity ++ " severity - standard remediation"
  let recPart : List String :=
    if recommended_actions.isEmpty then []
    else ["Recommendations available: "
      ++ toString recommended_actions.length ++ " actions"]
  String.intercalate " | " (parts1 ++ [sevPart] ++ recPart)

/-- The table scan in `DecisionMaker._select_actions`: first entry whose key
(with underscores replaced by spaces, or verbatim) occurs in the lowercased
observation contributes its first two actions, then the loop breaks. -/
def scanCauseTable (obsLower : String) :
    List (String × List (ActionType × String)) → List (ActionType × String)
  | [] => []
  | (pat, acts) :: rest =>
      if strContains obsLower (replaceChar pat '_' ' ') || strContains obsLower pat
      then acts.take 2
      else scanCauseTable obsLower rest

/-- The keyword scan applied to one recommended-action hint string
(`_select_actions`, second loop body). -/
def hintCandidate (rec : String) : Option (ActionType × String) :=
  let recLower := lowerStr rec
  if strContains recLower "restart" then some (.restart_pod, rec)
  else if strContains recLower "scale" then some (.scale_up, rec)
  else if strContains recLower "rollback" then some (.rollback, rec)
  else if strContains recLower "circuit" then some (.circuit_breaker, rec)
  else none

/-- The dedup loop of `_select_actions`: keep the first occurrence of each
`action_type`. `seen` is the set of already-kept types. -/
def dedupByType (seen : List ActionType) :
    List (ActionType × String) → List (ActionType × String)
  | [] => []
  | (t, r) :: rest =>
      if seen.contains t then dedupByType seen rest
      else (t, r) :: dedupByType (t :: seen) rest

/-- Embedding of `DecisionMaker._select_actions`: table candidates, then hint candidates
from the first two hints, deduplicated by type, truncated to three. -/
def select_actions (observation : String) (recommended_actions : List String) :
    List (ActionType × String) :=
  let selected := scanCauseTable (lowerStr observation) CAUSE_ACTION_MAP
    ++ (recommended_actions.take 2).filterMap hintCandidate
  (dedupByType [] selected).take 3

/-- Embedding of `DecisionMaker._get_action_parameters`: base service/namespace entries
plus type-specific defaults. -/
def get_action_parameters (t : ActionType) (service nspace : String) :
    List (String × ParamValue) :=
  let base := [("service", ParamValue.s service), ("namespace", ParamValue.s nspace)]
  match t with
  | .restart_pod => base ++ [("strategy", .s "rolling"), ("max_unavailable", .i 1)]
  | .scale_up => base ++ [("increment", .i 1), ("max_replicas", .i 10)]
  | .rollback => base ++ [("revision", .i (-1))]
  | .increase_resources =>
      base ++ [("cpu_multiplier", .q (3/2)), ("memory_multiplier", .q (3/2))]
  | _ => base

/-- Embedding of `DecisionMaker._assess_action_risk`: fixed risk lookup. -/
def assess_action_risk (t : ActionType) : String :=
  if t = .rollback || t = .scale_down || t = .custom then "high"
  else if t = .increase_resources || t = .failover then "medium"
  else "low"

/-- Embedding of `DecisionMaker._assess_plan_risk`: max of action risks as a banner. -/
def assess_plan_risk (actions : List HealingAction) : String :=
  if actions.any (fun a => a.risk_level == "high") then
    "HIGH: Plan contains high-risk actions. Manual review recommended."
  else if actions.any (fun a => a.risk_level == "medium") then
    "MEDIUM: Plan contains moderately risky actions. Monitor closely."
  else
    "LOW: Plan contains low-risk, reversible actions."

/-- Python `min` on two rationals (kept executable by the kernel). -/
def ratMin (a b : ℚ) : ℚ := if a ≤ b then a else b

/-- Python `max` on two rationals (kept executable by the kernel). -/
def ratMax (a b : ℚ) : ℚ := if a ≤ b then b else a

/-- Embedding of `DecisionMaker._calculate_confidence`: sequential adjustments of the 0.7
base by substring tests against the lowercased **observation** argument and a
high-risk test over the actions, then clamped. -/
def calculate_confidence (actions : List HealingAction) (observation : String) :
    ℚ :=
  let c0 : ℚ := 7/10
  let c1 := if strContains (lowerStr observation) "known pattern"
    then c0 + 15/100 else c0
  let c2 := if strContains (lowerStr observation) "unknown pattern"
    then c1 - 2/10 else c1
  let c3 := if actions.any (fun a => a.risk_level == "high")
    then c2 - 1/10 else c2
  ratMax (3/10) (ratMin (95/100) c3)

/-- The default action appended by `generate_plan` when `_select_actions`
returns nothing (note: its parameters are the route's literal dict, not
`_get_action_parameters`). -/
def defaultRestartAction (service nspace : String) : HealingAction :=
  { action_id := 0,
    action_type := .restart_pod,
    target := nspace ++ "/" ++ service,
    parameters := [("replicas", .i 1), ("strategy", .s "rolling")],
    reasoning := "Default recovery action - restart pods with rolling update",
    risk_level := "low",
    reversible := true }

/-- Embedding of `DecisionMaker.generate_plan`. `uuid.uuid4()` action ids are modelled by
the action's position in the list and the plan id by 0. -/
def generate_plan (incident_id : Nat) (service nspace : String)
    (observation orientation : String) (recommended_actions : List String) :
    HealingPlan :=
  let pairs := select_actions observation recommended_actions
  let fromSel := pairs.enum.map (fun pr =>
    { action_id := pr.1,
      action_type := pr.2.1,
      target := nspace ++ "/" ++ service,
      parameters := get_action_parameters pr.2.1 service nspace,
      reasoning := pr.2.2,
      risk_level := assess_action_risk pr.2.1,
      reversible := pr.2.1 ≠ ActionType.custom : HealingAction })
  let actions := if fromSel.isEmpty then [defaultRestartAction service nspace]
    else fromSel
  { plan_id := 0,
    incident_id := incident_id,
    observation := observation,
    orientation := orientation,
    decision := "Execute " ++ toString actions.length
      ++ " healing actions for " ++ service,
    actions := actions,
    estimated_duration_seconds := actions.length * 30,
    confidence := calculate_confidence actions observation,
    risk_assessment := assess_plan_risk actions }

/-! ## OODA Engine data model

Again `src/api/schemas.py` of the agent is absent; `HealingStatus`,
`HealingResult`, `OODAState` and `HealingRequest` are modelled from spec §3,
§4.4 and §6 and from every field access in `ooda_engine.py`/`routes.py`. -/

/-- Embedding of `HealingStatus` (spec §4.4 state machine). -/
inductive HealingStatus where
  | pending
  | observing
  | orienting
  | deciding
  | acting
  | validating
  | completed
  | failed
  | cancelled
deriving DecidableEq, Repr

/-- The statuses `ooda_engine.py` treats as terminal in `is_healing`/
`get_active_count`. -/
def HealingStatus.isTerminal : HealingStatus → Bool
  | .completed => true
  | .failed => true
  | .cancelled => true
  | _ => false

/-- Embedding of `HealingResult` (spec §3). -/
structure HealingResult where
  healing_id : Nat
  incident_id : Nat
  status : HealingStatus
  plan : Option HealingPlan
  actions_executed : Nat
  actions_successful : Nat
  started_at : Nat
  completed_at : Option Nat
  result_message : Option String
  error_message : Option String
deriving DecidableEq, Repr

/-- Embedding of `OODAState` (spec §3): introspection record for one healing. -/
structure OODAState where
  healing_id : Nat
  phase : String
  observation : Option String
  orientation : Option String
  decision : Option String
deriving DecidableEq, Repr

/-- Embedding of `HealingRequest` (spec §6). -/
structure HealingRequest where
  incident_id : Nat
  target_service : String
  target_namespace : String
  severity : String
  root_cause : Option String
  recommended_actions : List String
  force : Bool
deriving DecidableEq, Repr

/-- Configuration surface of the agent (`src/config.py`). -/
inductive HealingMode where
  | auto
  | semi_auto
  | manual
deriving DecidableEq, Repr

/-- Settings the engine and its routes read. -/
structure EngineConfig where
  healing_mode : HealingMode
  max_concurrent_healings : Nat
  cooldown_minutes : Nat
deriving DecidableEq, Repr

/-- Embedding of `OODAEngine.__init__` state: the healings and OODA-state registries, the
per-service cooldowns, the archived history, a fresh-id counter for
`uuid.uuid4()`, and the ghost log of actions handed to the executor. -/
structure Engine where
  healings : List (Nat × HealingResult)
  states : List (Nat × OODAState)
  cooldowns : List (String × Nat)
  history : List HealingResult
  nextId : Nat
  dispatched : List HealingAction
deriving DecidableEq, Repr

/-- The empty engine. -/
def Engine.init : Engine :=
  { healings := [], states := [], cooldowns := [], history := [],
    nextId := 0, dispatched := [] }

/-- Embedding of `self._healings.get(healing_id)`. -/
def lookupH (e : Engine) (hid : Nat) : Option HealingResult :=
  (e.healings.find? (fun p => p.1 == hid)).map (fun p => p.2)

/-- Embedding of `self._states.get(healing_id)`. -/
def lookupS (e : Engine) (hid : Nat) : Option OODAState :=
  (e.states.find? (fun p => p.1 == hid)).map (fun p => p.2)

/-- Update the stored `HealingResult` for `hid` in place (Python mutates the
shared object held in the dict). -/
def setHealing (e : Engine) (hid : Nat) (f : HealingResult → HealingResult) :
    Engine :=
  { e with healings := e.healings.map (fun p =>
      if p.1 == hid then (p.1, f p.2) else p) }

/-- Update the stored `OODAState` for `hid` in place. -/
def setState (e : Engine) (hid : Nat) (f : OODAState → OODAState) : Engine :=
  { e with states := e.states.map (fun p =>
      if p.1 == hid then (p.1, f p.2) else p) }

/-- Dict upsert for `self._cooldowns[service] = t`. -/
def setCooldown (e : Engine) (service : String) (t : Nat) : Engine :=
  { e with cooldowns :=
      if e.cooldowns.any (fun p => p.1 == service) then
        e.cooldowns.map (fun p => if p.1 == service then (p.1, t) else p)
      else e.cooldowns ++ [(service, t)] }

/-- Embedding of `self._cooldowns.get(service)`. -/
def lookupCooldown (e : Engine) (service : String) : Option Nat :=
  (e.cooldowns.find? (fun p => p.1 == service)).map (fun p => p.2)

/-- Embedding of `OODAEngine.register_healing`. -/
def register_healing (e : Engine) (r : HealingResult) : Engine :=
  { e with healings := e.healings ++ [(r.healing_id, r)],
           states := e.states ++ [(r.healing_id,
             { healing_id := r.healing_id, phase := "pending",
               observation := none, orientation := none, decision := none })] }

/-- Embedding of `OODAEngine.is_healing`: some non-terminal healing for the incident. -/
def is_healing (e : Engine) (incident_id : Nat) : Bool :=
  e.healings.any (fun p =>
    p.2.incident_id == incident_id && !p.2.status.isTerminal)

/-- Embedding of `OODAEngine.is_in_cooldown`: cooldown entry present and `now` before it. -/
def is_in_cooldown (e : Engine) (service : String) (now : Nat) : Bool :=
  match lookupCooldown e service with
  | some t => decide (now < t)
  | none => false

/-- Embedding of `OODAEngine.get_active_count`: non-terminal healings across incidents. -/
def get_active_count (e : Engine) : Nat :=
  e.healings.countP (fun p => !p.2.status.isTerminal)

/-- Embedding of `OODAEngine.get_total_count`. -/
def get_total_count (e : Engine) : Nat :=
  e.healings.length + e.history.length

/-- Embedding of `OODAEngine.get_success_rate`: completed over total of the archive. -/
def get_success_rate (e : Engine) : ℚ :=
  let total := e.history.length
  if 0 < total then
    ((e.history.countP (fun h => h.status == .completed) : ℚ)) / (total : ℚ)
  else 0

/-- Embedding of `OODAEngine.get_average_duration`: mean archived duration. -/
def get_average_duration (e : Engine) : ℚ :=
  let durations := e.history.filterMap (fun h =>
    match h.completed_at with
    | some c => some ((c - h.started_at : Nat))
    | none => none)
  if durations.isEmpty then 0
  else ((durations.sum : ℚ)) / ((durations.length : ℚ))

/-! ## OODA phases (`ooda_engine.py`) -/

/-- Embedding of `OODAEngine._observe`: the fixed-delimiter context string. -/
def observePhase (req : HealingRequest) : String :=
  let obs1 := ["Incident " ++ toString req.incident_id ++ " affecting "
      ++ req.target_service,
    "Severity: " ++ req.severity]
  let obs2 := match req.root_cause with
    | some rc => ["Suspected root cause: " ++ rc]
    | none => []
  let obs3 := if req.recommended_actions.isEmpty then []
    else ["Recommended actions: "
      ++ String.intercalate ", " req.recommended_actions]
  String.intercalate " | " (obs1 ++ obs2 ++ obs3)

/-- Embedding of `OODAEngine._orient`: delegate to the Decision Maker's analysis. -/
def orientPhase (req : HealingRequest) : String :=
  analyze_incident req.root_cause req.severity req.recommended_actions

/-- Embedding of `OODAEngine._decide`: delegate to the Decision Maker's plan. -/
def decidePhase (req : HealingRequest) (observation orientation : String) :
    HealingPlan :=
  generate_plan req.incident_id req.target_service req.target_namespace
    observation orientation req.recommended_actions

/-- Embedding of `OODAEngine._act`: dispatch each plan action in order via the executor
oracle, bumping `actions_executed` always and `actions_successful` on
success; a failed dispatch does not stop the batch. -/
def actPhase (exec : HealingAction → Bool) (e : Engine) (hid : Nat) :
    List HealingAction → Engine
  | [] => e
  | a :: rest =>
      let e1 := { setHealing e hid (fun r =>
          { r with actions_executed := r.actions_executed + 1,
                   actions_successful := r.actions_successful
                     + (if exec a then 1 else 0) }) with
        dispatched := e.dispatched ++ [a] }
      actPhase exec e1 hid rest

/-- Embedding of `OODAEngine._validate`: stub that always reports success. -/
def validatePhase (_service : String) : Bool := true

/-- Embedding of `OODAEngine.run_ooda_loop`: the full pipeline. The phase-by-phase status
and OODA-state writes are applied in source order; the embedded pipeline is
total, so it models every run in which no exception escapes a phase. -/
def run_ooda_loop (cfg : EngineConfig) (exec : HealingAction → Bool)
    (e : Engine) (hid : Nat) (req : HealingRequest) (now : Nat) : Engine :=
  if (lookupH e hid).isSome && (lookupS e hid).isSome then
    let observation := observePhase req
    let e1 := setHealing (setState e hid (fun st =>
      { st with phase := "observe", observation := some observation }))
      hid (fun r => { r with status := .observing })
    let orientation := orientPhase req
    let e2 := setHealing (setState e1 hid (fun st =>
      { st with phase := "orient", orientation := some orientation }))
      hid (fun r => { r with status := .orienting })
    let plan := decidePhase req observation orientation
    let e3 := setHealing (setState e2 hid (fun st =>
      { st with phase := "decide", decision := some plan.decision }))
      hid (fun r => { r with status := .deciding, plan := some plan })
    let e4 := setHealing (setState e3 hid (fun st => { st with phase := "act" }))
      hid (fun r => { r with status := .acting })
    let e5 := actPhase exec e4 hid plan.actions
    let e6 := setHealing (setState e5 hid (fun st =>
      { st with phase := "validate" }))
      hid (fun r => { r with status := .validating })
    let success := validatePhase req.target_service
    let e7 := setHealing e6 hid (fun r =>
      { r with status := if success then .completed else .failed,
               completed_at := some now,
               result_message := some (if success
                 then "Healing completed successfully"
                 else "Healing validation failed") })
    setCooldown e7 req.target_service (now + cfg.cooldown_minutes)
  else e

/-- Embedding of `OODAEngine.generate_plan_only` (semi-auto): O-O-D, then halt at
`deciding` awaiting approval. No cooldown is touched. -/
def generate_plan_only (e : Engine) (hid : Nat) (req : HealingRequest) :
    Engine :=
  if (lookupH e hid).isSome && (lookupS e hid).isSome then
    let observation := observePhase req
    let e1 := setState e hid (fun st =>
      { st with phase := "observe", observation := some observation })
    let orientation := orientPhase req
    let e2 := setState e1 hid (fun st =>
      { st with phase := "orient", orientation := some orientation })
    let plan := decidePhase req observation orientation
    let e3 := setHealing (setState e2 hid (fun st =>
      { st with phase := "decide", decision := some plan.decision }))
      hid (fun r => { r with plan := some plan })
    setHealing e3 hid (fun r =>
      { r with status := .deciding,
               result_message := some "Plan generated, awaiting approval" })
  else e

/-- Embedding of `OODAEngine.analyze_only` (manual mode): Observe and Orient only, then
finalize as completed. Nothing is dispatched and no cooldown is touched. -/
def analyze_only (e : Engine) (hid : Nat) (req : HealingRequest) (now : Nat) :
    Engine :=
  if (lookupH e hid).isSome && (lookupS e hid).isSome then
    let observation := observePhase req
    let e1 := setState e hid (fun st =>
      { st with phase := "observe", observation := some observation })
    let orientation := orientPhase req
    let e2 := setState e1 hid (fun st =>
      { st with phase := "orient", orientation := some orientation })
    setHealing e2 hid (fun r =>
      { r with status := .completed,
               result_message := some "Analysis complete. Manual action required.",
               completed_at := some now })
  else e

/-- Embedding of `OODAEngine.execute_plan` (post-approval path): act on the stored plan,
then mark completed unconditionally — there is no validation step and no
cooldown write. -/
def execute_plan (exec : HealingAction → Bool) (e : Engine) (hid : Nat)
    (now : Nat) : Engine :=
  match lookupH e hid with
  | none => e
  | some r =>
      match r.plan with
      | none => e
      | some plan =>
          let e1 := setHealing e hid (fun r => { r with status := .acting })
          let e2 := actPhase exec e1 hid plan.actions
          let e3 := setHealing e2 hid (fun r => { r with status := .validating })
          setHealing e3 hid (fun r =>
            { r with status := .completed,
                     completed_at := some now,
                     result_message := some "Plan executed successfully" })

/-- Embedding of `OODAEngine.cancel_healing`: if the healing exists, unconditionally set
`cancelled` and restamp `completed_at` (no state check). -/
def cancel_healing (e : Engine) (hid : Nat) (now : Nat) : Engine :=
  if (lookupH e hid).isSome then
    setHealing e hid (fun r =>
      { r with status := .cancelled, completed_at := some now })
  else e

/-! ## Agent routes (`autoheal-agent/src/api/routes.py`) -/

/-- Admission rejection reasons of the `/heal` route. -/
inductive RejectReason where
  | already_healing
  | concurrency_limit
  | cooldown_active
deriving DecidableEq, Repr

/-- HTTP status carried by each rejection in `trigger_healing`. -/
def rejectHttpStatus : RejectReason → Nat
  | .already_healing => 409
  | .concurrency_limit => 429
  | .cooldown_active => 429

/-- Embedding of `trigger_healing` (`routes.py`): the three admission checks in source
order, first failure winning; on admission a fresh `HealingResult` is
registered and its status set by mode (the background task itself is run
separately). Returns the new engine and healing id. -/
def trigger_healing (cfg : EngineConfig) (e : Engine) (req : HealingRequest)
    (now : Nat) : Except RejectReason (Engine × Nat) :=
  if is_healing e req.incident_id then .error .already_healing
  else if cfg.max_concurrent_healings ≤ get_active_count e then
    .error .concurrency_limit
  else if is_in_cooldown e req.target_service now && !req.force then
    .error .cooldown_active
  else
    let hid := e.nextId
    let r : HealingResult :=
      { healing_id := hid, incident_id := req.incident_id,
        status := .pending, plan := none,
        actions_executed := 0, actions_successful := 0,
        started_at := now, completed_at := none,
        result_message := none, error_message := none }
    let e1 := { register_healing e r with nextId := e.nextId + 1 }
    let initial : HealingStatus := match cfg.healing_mode with
      | .auto => .observing
      | .semi_auto => .deciding
      | .manual => .orienting
    .ok (setHealing e1 hid (fun r => { r with status := initial }), hid)

/-! ## Engine operation sequences

Every mutating entry point of `OODAEngine`, for whole-trace invariants. -/

/-- One mutating engine operation. `register` registers a fresh-id healing
the way the `/heal` route constructs one. -/
inductive EngineOp where
  | register (incident_id : Nat) (now : Nat)
  | runLoop (hid : Nat) (req : HealingRequest) (now : Nat)
  | planOnly (hid : Nat) (req : HealingRequest)
  | analyzeOnly (hid : Nat) (req : HealingRequest) (now : Nat)
  | executePlan (hid : Nat) (now : Nat)
  | cancel (hid : Nat) (now : Nat)
  | trigger (req : HealingRequest) (now : Nat)
deriving Repr

/-- Apply one engine operation. -/
def applyOp (cfg : EngineConfig) (exec : HealingAction → Bool) (e : Engine) :
    EngineOp → Engine
  | .register iid now =>
      { register_healing e
          { healing_id := e.nextId, incident_id := iid, status := .pending,
            plan := none, actions_executed := 0, actions_successful := 0,
            started_at := now, completed_at := none,
            result_message := none, error_message := none } with
        nextId := e.nextId + 1 }
  | .runLoop hid req now => run_ooda_loop cfg exec e hid req now
  | .planOnly hid req => generate_plan_only e hid req
  | .analyzeOnly hid req now => analyze_only e hid req now
  | .executePlan hid now => execute_plan exec e hid now
  | .cancel hid now => cancel_healing e hid now
  | .trigger req now =>
      match trigger_healing cfg e req now with
      | .ok (e1, _) => e1
      | .error _ => e

/-- Apply a sequence of engine operations. -/
def applyOps (cfg : EngineConfig) (exec : HealingAction → Bool) (e : Engine) :
    List EngineOp → Engine
  | [] => e
  | op :: rest => applyOps cfg exec (applyOp cfg exec e op) rest

/-! ## Correlation lemmas -/

/-- Moving "now" later only shrinks the set of incidents inside the
correlation window. -/
theorem openWindowCount_mono (st : CorrState) (svc ns : String) (w : Nat)
    {t t' : Nat} (h : t ≤ t') :
    openWindowCount st svc ns w t' ≤ openWindowCount st svc ns w t := by
  unfold openWindowCount
  refine List.countP_mono_left (fun i _ hi => ?_)
  simp only [relatedPred, Bool.and_eq_true, and_assoc, decide_eq_true_eq] at hi ⊢
  obtain ⟨h1, h2, h3, h4, h5⟩ := hi
  exact ⟨h1, h2, h3, h4, le_trans (Nat.sub_le_sub_right h w) h5⟩

/-- Embedding of `add_event_to_incident` changes no field `relatedPred` reads. -/
theorem countP_add_event (store : List Incident) (iid eid now : Nat)
    (svc ns : String) (c : Nat) :
    (add_event_to_incident store iid eid now).countP (relatedPred svc ns c)
      = store.countP (relatedPred svc ns c) := by
  unfold add_event_to_incident
  rw [List.countP_map]
  exact List.countP_congr (fun i _ => by
    by_cases hi : i.incident_id == iid <;> simp [Function.comp, hi, relatedPred])

/-- The log-analysis field overwrite changes no field `relatedPred` reads. -/
theorem countP_update_log (store : List Incident) (iid : Nat) (rc : String)
    (conf : ℚ) (acts : List String) (now : Nat) (svc ns : String) (c : Nat) :
    (update_incident_log_fields store iid rc conf acts now).countP
      (relatedPred svc ns c) = store.countP (relatedPred svc ns c) := by
  unfold update_incident_log_fields
  rw [List.countP_map]
  exact List.countP_congr (fun i _ => by
    by_cases hi : i.incident_id == iid <;> simp [Function.comp, hi, relatedPred])

/-- Appending one incident to a store that held at most one match — and zero
matches whenever the newcomer itself matches — keeps at most one match. -/
theorem countP_append_single_le (store : List Incident) (inc : Incident)
    (p : Incident → Bool)
    (hstore : store.countP p ≤ 1)
    (hzero_if : p inc = true → store.countP p = 0) :
    (store ++ [inc]).countP p ≤ 1 := by
  rw [List.countP_append, List.countP_cons, List.countP_nil]
  by_cases hp : p inc = true
  · rw [hzero_if hp, if_pos hp]
  · rw [if_neg hp]
    omega

/-- One ingest at time `t` preserves "at most one open incident in the
window as seen at `t`" for every target. -/
theorem ingest_step_preserves (w : Nat) (st : CorrState) (sig : Signal)
    (t : Nat) (svc ns : String)
    (h : openWindowCount st svc ns w t ≤ 1) :
    openWindowCount (receiveSignal w st sig t).state svc ns w t ≤ 1 := by
  unfold openWindowCount at h ⊢
  cases sig with
  | anomaly e =>
      cases hf : find_related_incident st.store e.target_service
          e.target_namespace w t with
      | some existing =>
          unfold receiveSignal receive_anomaly_event
          simp only [hf]
          rw [countP_add_event]
          exact h
      | none =>
          unfold receiveSignal receive_anomaly_event
          simp only [hf]
          apply countP_append_single_le _ _ _ h
          intro hp
          simp only [relatedPred, Bool.and_eq_true, and_assoc, beq_iff_eq,
            decide_eq_true_eq] at hp
          obtain ⟨-, -, hsvc, hns, -⟩ := hp
          subst hsvc; subst hns
          exact List.countP_eq_zero.mpr (fun i hi => List.find?_eq_none.mp hf i hi)
  | logAnalysis e =>
      cases hf : find_related_incident st.store e.service_name e.nspace w t with
      | some existing =>
          unfold receiveSignal receive_log_analysis_event
          simp only [hf]
          rw [countP_update_log, countP_add_event]
          exact h
      | none =>
          unfold receiveSignal receive_log_analysis_event
          simp only [hf]
          apply countP_append_single_le _ _ _ h
          intro hp
          simp only [relatedPred, Bool.and_eq_true, and_assoc, beq_iff_eq,
            decide_eq_true_eq] at hp
          obtain ⟨-, -, hsvc, hns, -⟩ := hp
          subst hsvc; subst hns
          exact List.countP_eq_zero.mpr (fun i hi => List.find?_eq_none.mp hf i hi)

/-- Invariant carried through a timed ingest sequence. -/
theorem ingestAll_inv (w : Nat) (svc ns : String) :
    ∀ (evs : List (Signal × Nat)) (st : CorrState) (t0 : Nat),
    (evs.map Prod.snd).Pairwise (· ≤ ·) →
    (∀ t ∈ evs.map Prod.snd, t0 ≤ t) →
    openWindowCount st svc ns w t0 ≤ 1 →
    ∀ T, (∀ t ∈ evs.map Prod.snd, t ≤ T) → t0 ≤ T →
    openWindowCount (ingestAll w st evs) svc ns w T ≤ 1
  | [], st, t0, _, _, hinv, T, _, ht0T =>
      le_trans (openWindowCount_mono st svc ns w ht0T) hinv
  | (sig, t) :: rest, st, t0, hsorted, hlow, hinv, T, hhigh, _ => by
      simp only [List.map_cons, List.pairwise_cons] at hsorted
      have ht0t : t0 ≤ t := hlow t (by simp)
      have hstep := ingest_step_preserves w st sig t svc ns
        (le_trans (openWindowCount_mono st svc ns w ht0t) hinv)
      exact ingestAll_inv w svc ns rest (receiveSignal w st sig t).state t
        hsorted.2 (fun u hu => hsorted.1 u hu) hstep T
        (fun u hu => hhigh u (by simp [hu])) (hhigh t (by simp))

/-! ## Claim C1 -/

/-- First anomaly signal of the C1/C7 concrete runs. -/
def c1e1 : AnomalyEvent :=
  { event_id := 101, anomaly_type := "error_rate_spike", severity := "high",
    target_service := "checkout", target_namespace := "default",
    metric_name := "error_rate", current_value := 3/10,
    threshold_value := 1/20 }

/-- Second anomaly signal for the same target, 16 ticks later. -/
def c1e2 : AnomalyEvent := { c1e1 with event_id := 102 }

/-- C1, counterexample: with a 15-minute window, a second anomaly for the
same `(target_service, target_namespace)` arriving 16 minutes after the
first does not correlate (the open incident is older than the window), so a
second incident is created and **two** incidents for the target are
non-terminal — the claimed "at most one open incident per target after any
ingest sequence" is false on the code. -/
theorem claim_C1_counterexample :
    openCount
      (ingestAll 15 ⟨[], 0⟩ [(Signal.anomaly c1e1, 0), (Signal.anomaly c1e2, 16)])
      "checkout" "default" = 2
    ∧ (ingestAll 15 ⟨[], 0⟩
        [(Signal.anomaly c1e1, 0), (Signal.anomaly c1e2, 16)]).store.length = 2 := by
  constructor <;> decide

/-- C1 (amended): after any sequence of ingests at nondecreasing times,
at most one incident per `(target_service, target_namespace)` is
simultaneously non-terminal **and created within the correlation window of
the current time**; once an open incident is older than the window, a new
signal for its target legitimately opens a second incident. -/
theorem claim_C1 (w : Nat) (evs : List (Signal × Nat)) (svc ns : String)
    (T : Nat)
    (hsorted : (evs.map Prod.snd).Pairwise (· ≤ ·))
    (hle : ∀ t ∈ evs.map Prod.snd, t ≤ T) :
    openWindowCount (ingestAll w ⟨[], 0⟩ evs) svc ns w T ≤ 1 :=
  ingestAll_inv w svc ns evs ⟨[], 0⟩ 0 hsorted (fun t _ => Nat.zero_le t)
    (by simp [openWindowCount]) T hle (Nat.zero_le T)

/-- C1, witness: the amended bound evaluated on the concrete two-signal run
(which creates two incidents, only one of which is still inside the window). -/
theorem claim_C1_witness :
    ([(Signal.anomaly c1e1, 0), (Signal.anomaly c1e2, 16)].map Prod.snd).Pairwise
        (· ≤ ·)
    ∧ openWindowCount
        (ingestAll 15 ⟨[], 0⟩
          [(Signal.anomaly c1e1, 0), (Signal.anomaly c1e2, 16)])
        "checkout" "default" 15 16 ≤ 1 :=
  ⟨by decide,
   claim_C1 15 [(Signal.anomaly c1e1, 0), (Signal.anomaly c1e2, 16)]
     "checkout" "default" 16 (by decide) (by decide)⟩

/-! ## Claim C7 -/

/-- The ingest outcome is `correlated` exactly when `find_related_incident`
finds a match. -/
theorem receive_correlated_iff_find (w : Nat) (st : CorrState) (sig : Signal)
    (now : Nat) :
    ((receiveSignal w st sig now).action = .correlated)
      ↔ (find_related_incident st.store sig.service sig.nspace w now).isSome := by
  cases sig with
  | anomaly e =>
      unfold receiveSignal receive_anomaly_event Signal.service Signal.nspace
      cases hf : find_related_incident st.store e.target_service
          e.target_namespace w now <;> simp [hf]
  | logAnalysis e =>
      unfold receiveSignal receive_log_analysis_event Signal.service Signal.nspace
      cases hf : find_related_incident st.store e.service_name e.nspace w now <;>
        simp [hf]

/-- C7: an incoming signal correlates exactly when some stored incident with
the signal's target is non-terminal and was created within `window_minutes`
of now (`created_at ≥ now - window`); on correlation the matched incident
keeps its identity and gets the signal's event id appended; otherwise a
fresh non-terminal incident for the target, created now and carrying exactly
the signal's event id, is appended to the store. -/
theorem claim_C7 (w : Nat) (st : CorrState) (sig : Signal) (now : Nat) :
    (((receiveSignal w st sig now).action = .correlated) ↔
      ∃ i ∈ st.store, (i.status ≠ .resolved ∧ i.status ≠ .failed)
        ∧ i.target_service = sig.service ∧ i.target_namespace = sig.nspace
        ∧ now - w ≤ i.created_at)
    ∧ (∀ i, find_related_incident st.store sig.service sig.nspace w now = some i →
        (receiveSignal w st sig now).action = .correlated
        ∧ (receiveSignal w st sig now).incident_id = i.incident_id
        ∧ ∃ j ∈ (receiveSignal w st sig now).state.store,
            j.incident_id = i.incident_id
            ∧ j.event_ids = i.event_ids ++ [sig.eventId])
    ∧ ((receiveSignal w st sig now).action = .created →
        ∃ j, (receiveSignal w st sig now).state.store = st.store ++ [j]
          ∧ j.created_at = now ∧ j.target_service = sig.service
          ∧ j.target_namespace = sig.nspace
          ∧ j.status ≠ .resolved ∧ j.status ≠ .failed
          ∧ j.event_ids = [sig.eventId]) := by
  refine ⟨?_, ?_, ?_⟩
  · rw [receive_correlated_iff_find]
    unfold find_related_incident
    rw [List.find?_isSome]
    constructor
    · rintro ⟨i, hi, hp⟩
      refine ⟨i, hi, ?_⟩
      simpa [relatedPred, and_assoc] using hp
    · rintro ⟨i, hi, hp⟩
      refine ⟨i, hi, ?_⟩
      simpa [relatedPred, and_assoc] using hp
  · intro i hf
    have hmem : i ∈ st.store := by
      have := List.mem_of_find?_eq_some (p := relatedPred sig.service sig.nspace
        (now - w)) hf
      exact this
    cases sig with
    | anomaly e =>
        unfold receiveSignal receive_anomaly_event
        unfold Signal.service Signal.nspace at hf
        simp only [hf]
        refine ⟨by trivial, by trivial, ?_⟩
        unfold add_event_to_incident
        refine ⟨_, List.mem_map_of_mem _ hmem, ?_⟩
        simp [Signal.eventId]
    | logAnalysis e =>
        unfold receiveSignal receive_log_analysis_event
        unfold Signal.service Signal.nspace at hf
        simp only [hf]
        refine ⟨by trivial, by trivial, ?_⟩
        unfold update_incident_log_fields add_event_to_incident
        rw [List.map_map]
        refine ⟨_, List.mem_map_of_mem _ hmem, ?_⟩
        simp [Function.comp, Signal.eventId]
  · intro hcreated
    cases sig with
    | anomaly e =>
        unfold receiveSignal receive_anomaly_event at hcreated ⊢
        cases hf : find_related_incident st.store e.target_service
            e.target_namespace w now with
        | some existing => simp [hf] at hcreated
        | none =>
            simp only [hf]
            exact ⟨_, rfl, rfl, rfl, rfl, by simp, by simp, rfl⟩
    | logAnalysis e =>
        unfold receiveSignal receive_log_analysis_event at hcreated ⊢
        cases hf : find_related_incident st.store e.service_name e.nspace w now with
        | some existing => simp [hf] at hcreated
        | none =>
            simp only [hf]
            exact ⟨_, rfl, rfl, rfl, rfl, by simp, by simp, rfl⟩

/-! ## Engine registry lemmas -/

/-- Updating the value stored under one key rewrites the `find?` result for
that key. -/
theorem assocFind_mapIf {κ α : Type _} [BEq κ] [LawfulBEq κ]
    (l : List (κ × α)) (k : κ) (g : α → α) :
    (l.map (fun p => if p.1 == k then (p.1, g p.2) else p)).find?
        (fun p => p.1 == k)
      = (l.find? (fun p => p.1 == k)).map (fun p => (p.1, g p.2)) := by
  induction l with
  | nil => rfl
  | cons p rest ih =>
      by_cases h : p.1 == k
      · simp [List.find?_cons, h]
      · have hb : (p.1 == k) = false := by simpa using h
        simp [List.find?_cons, hb, ih]

/-- Embedding of `setHealing` rewrites the looked-up record under the same id. -/
theorem lookupH_setHealing (e : Engine) (hid : Nat) (f : HealingResult → HealingResult) :
    lookupH (setHealing e hid f) hid = (lookupH e hid).map f := by
  unfold lookupH setHealing
  rw [assocFind_mapIf]
  cases e.healings.find? (fun p => p.1 == hid) <;> rfl

/-- Embedding of `setState` does not touch the healing registry. -/
theorem lookupH_setState (e : Engine) (hid hid' : Nat) (f : OODAState → OODAState) :
    lookupH (setState e hid f) hid' = lookupH e hid' := rfl

/-- Embedding of `setCooldown` does not touch the healing registry. -/
theorem lookupH_setCooldown (e : Engine) (s : String) (t : Nat) (hid : Nat) :
    lookupH (setCooldown e s t) hid = lookupH e hid := rfl

/-- After `setCooldown` the service's cooldown reads back as the new value. -/
theorem lookupCooldown_setCooldown_self (e : Engine) (s : String) (t : Nat) :
    lookupCooldown (setCooldown e s t) s = some t := by
  unfold lookupCooldown setCooldown
  by_cases h : e.cooldowns.any (fun p => p.1 == s)
  · rw [if_pos h]
    rw [assocFind_mapIf (g := fun _ => t)]
    obtain ⟨p, hp, hps⟩ := List.any_eq_true.mp h
    cases hfind : e.cooldowns.find? (fun p => p.1 == s) with
    | none =>
        exact absurd (List.find?_eq_none.mp hfind p hp) (by simpa using hps)
    | some q => rfl
  · rw [if_neg h]
    have hnone : e.cooldowns.find? (fun p => p.1 == s) = none := by
      rw [List.find?_eq_none]
      intro p hp
      exact fun hps => h (List.any_eq_true.mpr ⟨p, hp, hps⟩)
    rw [List.find?_append, hnone]
    simp

/-- Everything `actPhase` leaves alone, plus its effect on the acting
healing's counters and on the dispatch log. -/
theorem actPhase_spec (exec : HealingAction → Bool) (acts : List HealingAction) :
    ∀ (e : Engine) (hid : Nat),
    (actPhase exec e hid acts).cooldowns = e.cooldowns
    ∧ (actPhase exec e hid acts).states = e.states
    ∧ (actPhase exec e hid acts).history = e.history
    ∧ (actPhase exec e hid acts).nextId = e.nextId
    ∧ (actPhase exec e hid acts).healings.length = e.healings.length
    ∧ (actPhase exec e hid acts).dispatched = e.dispatched ++ acts
    ∧ lookupH (actPhase exec e hid acts) hid = (lookupH e hid).map (fun r =>
        { r with actions_executed := r.actions_executed + acts.length,
                 actions_successful := r.actions_successful + acts.countP exec }) := by
  induction acts with
  | nil =>
      intro e hid
      refine ⟨rfl, rfl, rfl, rfl, rfl, by simp [actPhase], ?_⟩
      cases hr : lookupH e hid <;> simp [actPhase, hr]
  | cons a rest ih =>
      intro e hid
      have hstep : lookupH ({ setHealing e hid (fun r =>
          { r with actions_executed := r.actions_executed + 1,
                   actions_successful := r.actions_successful
                     + (if exec a then 1 else 0) }) with
            dispatched := e.dispatched ++ [a] }) hid
          = (lookupH e hid).map (fun r =>
            { r with actions_executed := r.actions_executed + 1,
                     actions_successful := r.actions_successful
                       + (if exec a then 1 else 0) }) := by
        have := lookupH_setHealing e hid (fun r =>
          { r with actions_executed := r.actions_executed + 1,
                   actions_successful := r.actions_successful
                     + (if exec a then 1 else 0) })
        simpa [lookupH] using this
      obtain ⟨h1, h2, h3, h4, h5, h6, h7⟩ := ih ({ setHealing e hid (fun r =>
          { r with actions_executed := r.actions_executed + 1,
                   actions_successful := r.actions_successful
                     + (if exec a then 1 else 0) }) with
            dispatched := e.dispatched ++ [a] }) hid
      refine ⟨?_, ?_, ?_, ?_, ?_, ?_, ?_⟩
      · simpa [actPhase, setHealing] using h1
      · simpa [actPhase, setHealing] using h2
      · simpa [actPhase, setHealing] using h3
      · simpa [actPhase, setHealing] using h4
      · simpa [actPhase, setHealing] using h5
      · simp only [actPhase] at h6 ⊢
        rw [h6, List.append_assoc]
        rfl
      · simp only [actPhase] at h7 ⊢
        rw [h7, hstep]
        cases hr : lookupH e hid with
        | none => rfl
        | some r =>
            simp only [Option.map_some', Option.some.injEq,
              HealingResult.mk.injEq, List.length_cons, List.countP_cons]
            by_cases hx : exec a <;> simp [hx] <;> omega

/-- A freshly appended registry entry is found when no earlier entry uses
its key. -/
theorem lookup_append_fresh {α : Type _} (l : List (Nat × α)) (hid : Nat)
    (x : α) (hfresh : ∀ p ∈ l, p.1 ≠ hid) :
    (l ++ [(hid, x)]).find? (fun p => p.1 == hid) = some (hid, x) := by
  induction l with
  | nil => simp [List.find?]
  | cons p rest ih =>
      have hp : (p.1 == hid) = false := by
        simpa using hfresh p (by simp)
      simp only [List.cons_append, List.find?_cons, hp, cond_false]
      exact ih (fun q hq => hfresh q (by simp [hq]))

/-- Keys are untouched by a value-rewriting map. -/
theorem mapIf_keys (l : List (Nat × HealingResult)) (k : Nat)
    (f : Nat × HealingResult → HealingResult) :
    (l.map (fun p => if p.1 == k then (p.1, f p) else p)).map Prod.fst
      = l.map Prod.fst := by
  rw [List.map_map]
  apply List.map_congr_left
  intro p _
  by_cases h : p.1 = k <;> simp [h]

/-! ## Claim C4 -/

/-- The already-completed healing of the C4 runs. -/
def c4rec : HealingResult :=
  { healing_id := 0, incident_id := 1, status := .completed, plan := none,
    actions_executed := 1, actions_successful := 1, started_at := 1,
    completed_at := some 5, result_message := some "Healing completed successfully",
    error_message := none }

/-- An engine holding only that terminal healing. -/
def c4engine : Engine :=
  { healings := [(0, c4rec)],
    states := [(0, { healing_id := 0, phase := "validate",
                     observation := none, orientation := none,
                     decision := none })],
    cooldowns := [], history := [], nextId := 1, dispatched := [] }

/-- C4, counterexample: `cancel_healing` applied to an already-`completed`
healing overwrites its status to `cancelled` and restamps `completed_at`
(5 → 9); terminal HealingResults are not immutable and cancel is not
restricted to non-terminal states. -/
theorem claim_C4_counterexample :
    (lookupH c4engine 0).map (fun r => (r.status, r.completed_at))
      = some (HealingStatus.completed, some 5)
    ∧ (lookupH (cancel_healing c4engine 0 9) 0).map
        (fun r => (r.status, r.completed_at))
      = some (HealingStatus.cancelled, some 9) := by
  exact ⟨by decide, by decide⟩

/-- C4 (amended): `cancel_healing` is unconditional at the record level: for
any registered healing — terminal or not — it sets the status to `cancelled`
and restamps `completed_at` with the cancellation time; for an unknown id it
is a no-op (the route answers 404). -/
theorem claim_C4 (e : Engine) (hid now : Nat) (r : HealingResult)
    (hr : lookupH e hid = some r) :
    lookupH (cancel_healing e hid now) hid
      = some { r with status := .cancelled, completed_at := some now } := by
  unfold cancel_healing
  rw [hr]
  simp only [Option.isSome_some, if_true]
  rw [lookupH_setHealing, hr]
  rfl

/-- C4, witness: the amended rule evaluated on the concrete terminal
healing. -/
theorem claim_C4_witness :
    lookupH c4engine 0 = some c4rec
    ∧ lookupH (cancel_healing c4engine 0 9) 0
      = some { c4rec with status := .cancelled, completed_at := some 9 } :=
  ⟨rfl, claim_C4 c4engine 0 9 c4rec rfl⟩

/-! ## Claim C6 -/

/-- C6: the `/heal` route admits or rejects by exactly the three checks in
source order, first failure winning — 409 `already_healing` iff some
non-terminal healing exists for the incident; else 429 `concurrency_limit`
iff the active count has reached the cap; else 429 `cooldown_active` iff the
target service is cooling down and the request is not forced; and on
admission exactly one fresh HealingResult (under the fresh id) is
registered. -/
theorem claim_C6 (cfg : EngineConfig) (e : Engine) (req : HealingRequest)
    (now : Nat) :
    (trigger_healing cfg e req now = .error .already_healing
      ↔ is_healing e req.incident_id = true)
    ∧ (trigger_healing cfg e req now = .error .concurrency_limit
      ↔ is_healing e req.incident_id = false
        ∧ cfg.max_concurrent_healings ≤ get_active_count e)
    ∧ (trigger_healing cfg e req now = .error .cooldown_active
      ↔ is_healing e req.incident_id = false
        ∧ get_active_count e < cfg.max_concurrent_healings
        ∧ is_in_cooldown e req.target_service now = true ∧ req.force = false)
    ∧ (∀ e1 hid, trigger_healing cfg e req now = .ok (e1, hid) →
        hid = e.nextId ∧ e1.nextId = e.nextId + 1
        ∧ e1.healings.map Prod.fst = e.healings.map Prod.fst ++ [hid]
        ∧ e1.healings.length = e.healings.length + 1)
    ∧ rejectHttpStatus .already_healing = 409
    ∧ rejectHttpStatus .concurrency_limit = 429
    ∧ rejectHttpStatus .cooldown_active = 429 := by
  unfold trigger_healing
  by_cases h1 : is_healing e req.incident_id
  · simp [h1, rejectHttpStatus]
  · by_cases h2 : cfg.max_concurrent_healings ≤ get_active_count e
    · simp [h1, h2, rejectHttpStatus, Nat.not_lt.mpr h2]
    · by_cases h3 : (is_in_cooldown e req.target_service now && !req.force) = true
      · have h3' : is_in_cooldown e req.target_service now = true
            ∧ req.force = false := by
          simpa [Bool.and_eq_true, Bool.not_eq_true'] using h3
        simp [h1, h2, h3, rejectHttpStatus, Nat.lt_of_not_le h2, h3'.1, h3'.2]
      · refine ⟨by simp [h1, h2, h3], by simp [h1, h2, h3],
          by simp [h1, h2, h3]; intro hcd hforce; simp [hcd, hforce] at h3;
             exact h3, ?_,
          rfl, rfl, rfl⟩
        intro e1 hid heq
        simp [h1, h2, h3, Prod.mk.injEq] at heq
        obtain ⟨he1, hhid⟩ := heq
        subst he1
        subst hhid
        refine ⟨rfl, rfl, ?_, ?_⟩
        · simp only [setHealing, register_healing]
          rw [mapIf_keys, List.map_append]
          rfl
        · simp [setHealing, register_healing]

/-! ## Claim C2 -/

/-- A stored plan with a single low-risk action, for the C2/C10 concrete
runs. -/
def c2plan : HealingPlan :=
  { plan_id := 0, incident_id := 1, observation := "obs",
    orientation := "orient", decision := "Execute 1 healing actions for checkout",
    actions := [defaultRestartAction "checkout" "default"],
    estimated_duration_seconds := 30, confidence := 7/10,
    risk_assessment := "LOW: Plan contains low-risk, reversible actions." }

/-- The approved (deciding) healing holding that plan. -/
def c2rec : HealingResult :=
  { healing_id := 0, incident_id := 1, status := .deciding,
    plan := some c2plan, actions_executed := 0, actions_successful := 0,
    started_at := 1, completed_at := none,
    result_message := some "Plan generated, awaiting approval",
    error_message := none }

/-- An engine holding one approved (deciding) healing with that plan. -/
def c2engine : Engine :=
  { healings := [(0, c2rec)],
    states := [(0, { healing_id := 0, phase := "decide",
                     observation := some "obs", orientation := some "orient",
                     decision := some "d" })],
    cooldowns := [], history := [], nextId := 1, dispatched := [] }

/-- C2, counterexample: the post-approval path `execute_plan` drives the
healing to the terminal status `completed`, yet writes **no** cooldown — the
cooldown table stays empty and the target service is not in cooldown — so
"every healing that reaches completed/failed sets a cooldown (including
after approval in semi-auto)" is false on the code. -/
theorem claim_C2_counterexample :
    (lookupH (execute_plan (fun _ => true) c2engine 0 50) 0).map
        (fun r => (r.status, r.completed_at))
      = some (HealingStatus.completed, some 50)
    ∧ (execute_plan (fun _ => true) c2engine 0 50).cooldowns = []
    ∧ is_in_cooldown (execute_plan (fun _ => true) c2engine 0 50) "checkout" 50
      = false := by
  exact ⟨by decide, by decide, by decide⟩

/-- C2 (amended): a cooldown of now + cooldown_minutes for the request's
target service is written exactly when `run_ooda_loop` finishes its pipeline
(regardless of validation success); neither `execute_plan` (the semi-auto
post-approval path) nor any other terminal path touches the cooldown table.
While a cooldown is active, a non-forced trigger that passes the
already-healing and concurrency checks is rejected with `cooldown_active`,
and a forced trigger is never rejected with `cooldown_active`. -/
theorem claim_C2 :
    (∀ (cfg : EngineConfig) (exec : HealingAction → Bool) (e : Engine)
        (hid : Nat) (req : HealingRequest) (now : Nat),
        (lookupH e hid).isSome = true → (lookupS e hid).isSome = true →
        lookupCooldown (run_ooda_loop cfg exec e hid req now) req.target_service
          = some (now + cfg.cooldown_minutes))
    ∧ (∀ (exec : HealingAction → Bool) (e : Engine) (hid now : Nat),
        (execute_plan exec e hid now).cooldowns = e.cooldowns)
    ∧ (∀ (cfg : EngineConfig) (e : Engine) (req : HealingRequest) (now : Nat),
        is_healing e req.incident_id = false →
        get_active_count e < cfg.max_concurrent_healings →
        is_in_cooldown e req.target_service now = true → req.force = false →
        trigger_healing cfg e req now = .error .cooldown_active)
    ∧ (∀ (cfg : EngineConfig) (e : Engine) (req : HealingRequest) (now : Nat),
        req.force = true →
        trigger_healing cfg e req now ≠ .error .cooldown_active) := by
  refine ⟨?_, ?_, ?_, ?_⟩
  · intro cfg exec e hid req now hH hS
    unfold run_ooda_loop
    rw [if_pos (by rw [hH, hS]; rfl)]
    exact lookupCooldown_setCooldown_self _ _ _
  · intro exec e hid now
    cases hr : lookupH e hid with
    | none => unfold execute_plan; simp only [hr]
    | some r =>
        cases hp : r.plan with
        | none => unfold execute_plan; simp only [hr, hp]
        | some plan =>
            unfold execute_plan
            simp only [hr, hp]
            exact (actPhase_spec exec plan.actions
              (setHealing e hid (fun r => { r with status := .acting })) hid).1
  · intro cfg e req now h1 h2 h3 h4
    unfold trigger_healing
    rw [if_neg (by simp [h1]), if_neg (by simp [Nat.not_le.mpr h2]),
      if_pos (by simp [h3, h4])]
  · intro cfg e req now hforce heq
    unfold trigger_healing at heq
    by_cases h1 : is_healing e req.incident_id
    · simp [h1] at heq
    · by_cases h2 : cfg.max_concurrent_healings ≤ get_active_count e
      · simp [h1, h2] at heq
      · simp [h1, h2, hforce] at heq

/-- The request used for the C2 witness run. -/
def c2req : HealingRequest :=
  { incident_id := 1, target_service := "checkout",
    target_namespace := "default", severity := "high",
    root_cause := some "error_rate_spike", recommended_actions := [],
    force := false }

/-- An engine configuration used by the concrete engine runs. -/
def c2cfg : EngineConfig :=
  { healing_mode := .auto, max_concurrent_healings := 3,
    cooldown_minutes := 10 }

/-- C2, witness: the amended cooldown rule evaluated on the concrete engine:
a full OODA run at time 50 leaves "checkout" cooling down until 60. -/
theorem claim_C2_witness :
    lookupCooldown (run_ooda_loop c2cfg (fun _ => true) c2engine 0 c2req 50)
      "checkout" = some (50 + 10) :=
  claim_C2.1 c2cfg (fun _ => true) c2engine 0 c2req 50 (by decide) (by decide)

/-! ## Claim C10 -/

/-- C10: for a healing with a stored plan, `execute_plan` always finalizes
as `completed` with the fixed success message and a fresh `completed_at`,
independent of the per-action dispatch outcomes (there is no validation
step); it bumps `actions_executed` once per plan action and
`actions_successful` only for successful dispatches, dispatches every plan
action in order, and touches no cooldown. -/
theorem claim_C10 (exec : HealingAction → Bool) (e : Engine) (hid now : Nat)
    (r : HealingResult) (plan : HealingPlan)
    (hr : lookupH e hid = some r) (hp : r.plan = some plan) :
    ∃ r', lookupH (execute_plan exec e hid now) hid = some r'
      ∧ r'.status = .completed
      ∧ r'.result_message = some "Plan executed successfully"
      ∧ r'.completed_at = some now
      ∧ r'.actions_executed = r.actions_executed + plan.actions.length
      ∧ r'.actions_successful = r.actions_successful + plan.actions.countP exec
      ∧ (execute_plan exec e hid now).cooldowns = e.cooldowns
      ∧ (execute_plan exec e hid now).dispatched
          = e.dispatched ++ plan.actions := by
  obtain ⟨hc, hs, hh, hn, hl, hd, hlk⟩ := actPhase_spec exec plan.actions
    (setHealing e hid (fun r => { r with status := .acting })) hid
  have hlook : lookupH (execute_plan exec e hid now) hid
      = some
        { r with
          status := .completed,
          actions_executed := r.actions_executed + plan.actions.length,
          actions_successful := r.actions_successful + plan.actions.countP exec,
          completed_at := some now,
          result_message := some "Plan executed successfully" } := by
    unfold execute_plan
    simp only [hr, hp]
    rw [lookupH_setHealing, lookupH_setHealing, hlk, lookupH_setHealing, hr]
    simp [hp]
  refine ⟨_, hlook, rfl, rfl, rfl, rfl, rfl, ?_, ?_⟩
  · unfold execute_plan
    simp only [hr, hp]
    exact hc
  · unfold execute_plan
    simp only [hr, hp]
    exact hd

/-- C10, witness: the concrete approved healing executed with an oracle that
fails every dispatch still completes with the success message; one action
executed, zero successful. -/
theorem claim_C10_witness :
    lookupH c2engine 0 = some c2rec
    ∧ ∃ r', lookupH (execute_plan (fun _ => false) c2engine 0 50) 0 = some r'
      ∧ r'.status = .completed
      ∧ r'.result_message = some "Plan executed successfully"
      ∧ r'.completed_at = some 50
      ∧ r'.actions_executed = 0 + c2plan.actions.length
      ∧ r'.actions_successful = 0 + c2plan.actions.countP (fun _ => false)
      ∧ (execute_plan (fun _ => false) c2engine 0 50).cooldowns
          = c2engine.cooldowns
      ∧ (execute_plan (fun _ => false) c2engine 0 50).dispatched
          = c2engine.dispatched ++ c2plan.actions := by
  refine ⟨rfl, ?_⟩
  exact claim_C10 (fun _ => false) c2engine 0 50 _ c2plan rfl rfl

/-! ## Claim C8 -/

/-- Registering under a never-used id makes the new record the lookup
result. -/
theorem lookupH_register_fresh (e : Engine) (r : HealingResult) (k : Nat)
    (hk : r.healing_id = k) (hfresh : ∀ p ∈ e.healings, p.1 ≠ k) :
    lookupH (register_healing e r) k = some r := by
  subst hk
  unfold lookupH register_healing
  rw [lookup_append_fresh e.healings r.healing_id r hfresh]
  rfl

/-- Registering under a never-used id creates the pending OODA state. -/
theorem lookupS_register_fresh (e : Engine) (r : HealingResult) (k : Nat)
    (hk : r.healing_id = k) (hfresh : ∀ p ∈ e.states, p.1 ≠ k) :
    lookupS (register_healing e r) k = some
      { healing_id := r.healing_id, phase := "pending", observation := none,
        orientation := none, decision := none } := by
  subst hk
  unfold lookupS register_healing
  rw [lookup_append_fresh e.states r.healing_id _ hfresh]
  rfl

/-- Bumping the id counter does not change healing lookups. -/
theorem lookupH_setNextId (e : Engine) (n hid : Nat) :
    lookupH { e with nextId := n } hid = lookupH e hid := rfl

/-- Bumping the id counter does not change state lookups. -/
theorem lookupS_setNextId (e : Engine) (n hid : Nat) :
    lookupS { e with nextId := n } hid = lookupS e hid := rfl

/-- Embedding of `setHealing` does not change state lookups. -/
theorem lookupS_setHealing (e : Engine) (hid : Nat)
    (f : HealingResult → HealingResult) (hid' : Nat) :
    lookupS (setHealing e hid f) hid' = lookupS e hid' := rfl

/-- C8: in manual mode, an admitted healing is registered at `orienting`,
runs only Observe and Orient (nothing is ever handed to the executor and the
action counters stay zero, so `acting` is never reached), and finalizes as
`completed` with the manual-action-required message and a `completed_at`
stamp. The freshness hypotheses say the engine has never reused its id
counter — true of every engine grown from `Engine.init`. -/
theorem claim_C8 (cfg : EngineConfig) (e : Engine) (req : HealingRequest)
    (now now2 : Nat) (e1 : Engine) (hid : Nat)
    (hmode : cfg.healing_mode = .manual)
    (hfreshH : ∀ p ∈ e.healings, p.1 ≠ e.nextId)
    (hfreshS : ∀ p ∈ e.states, p.1 ≠ e.nextId)
    (htrig : trigger_healing cfg e req now = .ok (e1, hid)) :
    lookupH e1 hid = some
      { healing_id := e.nextId, incident_id := req.incident_id,
        status := .orienting, plan := none, actions_executed := 0,
        actions_successful := 0, started_at := now, completed_at := none,
        result_message := none, error_message := none }
    ∧ (analyze_only e1 hid req now2).dispatched = e1.dispatched
    ∧ lookupH (analyze_only e1 hid req now2) hid = some
      { healing_id := e.nextId, incident_id := req.incident_id,
        status := .completed, plan := none, actions_executed := 0,
        actions_successful := 0, started_at := now, completed_at := some now2,
        result_message := some "Analysis complete. Manual action required.",
        error_message := none } := by
  unfold trigger_healing at htrig
  by_cases h1 : is_healing e req.incident_id
  · simp [h1] at htrig
  by_cases h2 : cfg.max_concurrent_healings ≤ get_active_count e
  · simp [h1, h2] at htrig
  by_cases h3 : (is_in_cooldown e req.target_service now && !req.force) = true
  · simp [h1, h2, h3] at htrig
  simp only [h1, h2, h3, if_neg, if_false, Bool.false_eq_true,
    not_false_eq_true, Except.ok.injEq, Prod.mk.injEq] at htrig
  obtain ⟨he1, hhid⟩ := htrig
  subst he1
  subst hhid
  simp only [hmode]
  have hr1 : lookupH (setHealing { register_healing e
      { healing_id := e.nextId, incident_id := req.incident_id,
        status := .pending, plan := none, actions_executed := 0,
        actions_successful := 0, started_at := now, completed_at := none,
        result_message := none, error_message := none } with
        nextId := e.nextId + 1 } e.nextId
      (fun r => { r with status := .orienting })) e.nextId = some
      { healing_id := e.nextId, incident_id := req.incident_id,
        status := .orienting, plan := none, actions_executed := 0,
        actions_successful := 0, started_at := now, completed_at := none,
        result_message := none, error_message := none } := by
    rw [lookupH_setHealing, lookupH_setNextId,
      lookupH_register_fresh e _ e.nextId rfl hfreshH]
    rfl
  have hs1 : lookupS (setHealing { register_healing e
      { healing_id := e.nextId, incident_id := req.incident_id,
        status := .pending, plan := none, actions_executed := 0,
        actions_successful := 0, started_at := now, completed_at := none,
        result_message := none, error_message := none } with
        nextId := e.nextId + 1 } e.nextId
      (fun r => { r with status := .orienting })) e.nextId = some
      { healing_id := e.nextId, phase := "pending", observation := none,
        orientation := none, decision := none } := by
    rw [lookupS_setHealing, lookupS_setNextId,
      lookupS_register_fresh e _ e.nextId rfl hfreshS]
  refine ⟨hr1, ?_, ?_⟩
  · unfold analyze_only
    rw [if_pos (by rw [hr1, hs1]; rfl)]
    rfl
  · unfold analyze_only
    rw [if_pos (by rw [hr1, hs1]; rfl), lookupH_setHealing, lookupH_setState,
      lookupH_setState, hr1]
    rfl

/-- The registered-then-orienting engine produced by the manual-mode witness
trigger. -/
def c8e1 : Engine :=
  setHealing { register_healing Engine.init
      { healing_id := 0, incident_id := 1, status := .pending, plan := none,
        actions_executed := 0, actions_successful := 0, started_at := 5,
        completed_at := none, result_message := none, error_message := none }
    with nextId := 1 } 0 (fun r => { r with status := .orienting })

/-- The manual-mode configuration of the C8 witness. -/
def c8cfg : EngineConfig :=
  { healing_mode := .manual, max_concurrent_healings := 3,
    cooldown_minutes := 10 }

/-- C8, witness: the manual-mode pipeline run from the empty engine. -/
theorem claim_C8_witness :
    trigger_healing c8cfg Engine.init c2req 5 = .ok (c8e1, 0)
    ∧ (lookupH (analyze_only c8e1 0 c2req 9) 0).map
        (fun r => (r.status, r.result_message, r.completed_at,
          r.actions_executed))
      = some (HealingStatus.completed,
          some "Analysis complete. Manual action required.", some 9, 0) := by
  refine ⟨rfl, ?_⟩
  have h := claim_C8 c8cfg Engine.init c2req 5 9 c8e1 0 rfl
    (by simp [Engine.init]) (by simp [Engine.init]) rfl
  rw [h.2.2]
  rfl

/-! ## Claim C9 -/

/-- Embedding of `actPhase` leaves the history untouched. -/
theorem actPhase_history (exec : HealingAction → Bool)
    (acts : List HealingAction) (e : Engine) (hid : Nat) :
    (actPhase exec e hid acts).history = e.history :=
  (actPhase_spec exec acts e hid).2.2.1

/-- Embedding of `actPhase` leaves the registry size untouched. -/
theorem actPhase_len (exec : HealingAction → Bool)
    (acts : List HealingAction) (e : Engine) (hid : Nat) :
    (actPhase exec e hid acts).healings.length = e.healings.length :=
  (actPhase_spec exec acts e hid).2.2.2.2.1

/-- Embedding of `actPhase` leaves the id counter untouched. -/
theorem actPhase_nextId (exec : HealingAction → Bool)
    (acts : List HealingAction) (e : Engine) (hid : Nat) :
    (actPhase exec e hid acts).nextId = e.nextId :=
  (actPhase_spec exec acts e hid).2.2.2.1

/-- Every single engine operation preserves the (empty) archive and keeps
the registry size in lockstep with the id counter. -/
theorem applyOp_preserves (cfg : EngineConfig) (exec : HealingAction → Bool)
    (e : Engine) (op : EngineOp) :
    (applyOp cfg exec e op).history = e.history
    ∧ (applyOp cfg exec e op).healings.length + e.nextId
        = e.healings.length + (applyOp cfg exec e op).nextId := by
  cases op with
  | register iid now =>
      refine ⟨rfl, ?_⟩
      simp only [applyOp, register_healing, List.length_append,
        List.length_cons, List.length_nil]
      omega
  | runLoop hid req now =>
      simp only [applyOp]
      unfold run_ooda_loop
      by_cases h : ((lookupH e hid).isSome && (lookupS e hid).isSome) = true
      · rw [if_pos h]
        constructor
        · simp [setCooldown, setHealing, setState, actPhase_history]
        · simp [setCooldown, setHealing, setState, actPhase_len,
            actPhase_nextId]
      · rw [if_neg h]
        exact ⟨rfl, by omega⟩
  | planOnly hid req =>
      simp only [applyOp]
      unfold generate_plan_only
      by_cases h : ((lookupH e hid).isSome && (lookupS e hid).isSome) = true
      · rw [if_pos h]
        exact ⟨by simp [setHealing, setState], by simp [setHealing, setState]⟩
      · rw [if_neg h]
        exact ⟨rfl, by omega⟩
  | analyzeOnly hid req now =>
      simp only [applyOp]
      unfold analyze_only
      by_cases h : ((lookupH e hid).isSome && (lookupS e hid).isSome) = true
      · rw [if_pos h]
        exact ⟨by simp [setHealing, setState], by simp [setHealing, setState]⟩
      · rw [if_neg h]
        exact ⟨rfl, by omega⟩
  | executePlan hid now =>
      simp only [applyOp]
      cases hr : lookupH e hid with
      | none => unfold execute_plan; simp [hr]
      | some r =>
          cases hp : r.plan with
          | none => unfold execute_plan; simp [hr, hp]
          | some plan =>
              unfold execute_plan
              simp only [hr, hp]
              constructor
              · simp [setHealing, actPhase_history]
              · simp [setHealing, actPhase_len, actPhase_nextId]
  | cancel hid now =>
      simp only [applyOp]
      unfold cancel_healing
      by_cases h : (lookupH e hid).isSome = true
      · rw [if_pos h]
        exact ⟨rfl, by simp [setHealing]⟩
      · rw [if_neg h]
        exact ⟨rfl, by omega⟩
  | trigger req now =>
      simp only [applyOp]
      unfold trigger_healing
      by_cases h1 : is_healing e req.incident_id
      · simp [h1]
      by_cases h2 : cfg.max_concurrent_healings ≤ get_active_count e
      · simp [h1, h2]
      by_cases h3 : (is_in_cooldown e req.target_service now && !req.force) = true
      · simp [h1, h2, h3]
      simp only [h1, h2, h3, if_neg, if_false, Bool.false_eq_true,
        not_false_eq_true]
      constructor
      · rfl
      · simp only [setHealing, register_healing, List.length_map,
          List.length_append, List.length_cons, List.length_nil]
        omega

/-- The per-operation frame conditions, folded over a whole trace. -/
theorem applyOps_inv (cfg : EngineConfig) (exec : HealingAction → Bool) :
    ∀ (ops : List EngineOp) (e : Engine),
    (applyOps cfg exec e ops).history = e.history
    ∧ (applyOps cfg exec e ops).healings.length + e.nextId
        = e.healings.length + (applyOps cfg exec e ops).nextId
  | [], e => ⟨rfl, rfl⟩
  | op :: rest, e => by
      obtain ⟨h1, h2⟩ := applyOp_preserves cfg exec e op
      obtain ⟨h3, h4⟩ := applyOps_inv cfg exec rest (applyOp cfg exec e op)
      refine ⟨?_, ?_⟩
      · show (applyOps cfg exec (applyOp cfg exec e op) rest).history = _
        rw [h3, h1]
      · show (applyOps cfg exec (applyOp cfg exec e op) rest).healings.length
            + e.nextId
          = e.healings.length
            + (applyOps cfg exec (applyOp cfg exec e op) rest).nextId
        omega

/-- C9: no engine operation ever writes the archived history: after any
operation trace from the initial engine the archive is empty, so
`get_success_rate` and `get_average_duration` are 0, `get_total_count` is
just the size of the live registry, and that size equals the id counter —
i.e. the number of healings ever registered. -/
theorem claim_C9 (cfg : EngineConfig) (exec : HealingAction → Bool)
    (ops : List EngineOp) :
    (applyOps cfg exec Engine.init ops).history = []
    ∧ get_success_rate (applyOps cfg exec Engine.init ops) = 0
    ∧ get_average_duration (applyOps cfg exec Engine.init ops) = 0
    ∧ get_total_count (applyOps cfg exec Engine.init ops)
        = (applyOps cfg exec Engine.init ops).healings.length
    ∧ (applyOps cfg exec Engine.init ops).healings.length
        = (applyOps cfg exec Engine.init ops).nextId := by
  obtain ⟨hh, hl⟩ := applyOps_inv cfg exec ops Engine.init
  have hh0 : (applyOps cfg exec Engine.init ops).history = [] := by
    simpa [Engine.init] using hh
  refine ⟨hh0, ?_, ?_, ?_, ?_⟩
  · simp [get_success_rate, hh0]
  · simp [get_average_duration, hh0]
  · simp [get_total_count, hh0]
  · simpa [Engine.init] using hl

/-! ## Claim C3 -/

/-- Evaluate `ratMin` when the first argument is not smaller. -/
theorem ratMin_right (a b : ℚ) (h : ¬ a ≤ b) : ratMin a b = b := if_neg h

/-- Evaluate `ratMax` when the second argument is larger. -/
theorem ratMax_right (a b : ℚ) (h : a ≤ b) : ratMax a b = b := if_pos h

/-- The claim's confidence formula read literally: base 0.7, the
pattern-mention bonuses/penalties tested against the **orientation** text,
the high-risk penalty, clamped to [0.3, 0.95]. -/
def confidenceClaimFromOrientation (orientation : String)
    (actions : List HealingAction) : ℚ :=
  ratMax (3/10) (ratMin (95/100)
    ((7/10 : ℚ)
      + (if strContains (lowerStr orientation) "known pattern"
          then 15/100 else 0)
      - (if strContains (lowerStr orientation) "unknown pattern"
          then 2/10 else 0)
      - (if actions.any (fun a => a.risk_level == "high")
          then 1/10 else 0)))

/-- The amended formula: the same arithmetic, but with the substring tests
applied to the **observation** argument, which is what
`_calculate_confidence` actually scans (note a text containing
"unknown pattern" also passes the "known pattern" substring test). -/
def confidenceFromObservation (observation : String)
    (actions : List HealingAction) : ℚ :=
  ratMax (3/10) (ratMin (95/100)
    ((7/10 : ℚ)
      + (if strContains (lowerStr observation) "known pattern"
          then 15/100 else 0)
      - (if strContains (lowerStr observation) "unknown pattern"
          then 2/10 else 0)
      - (if actions.any (fun a => a.risk_level == "high")
          then 1/10 else 0)))

/-- The orientation text produced by the Decision Maker when a known cause
pattern is recognized. -/
def c3orient : String := "Known pattern detected - automated healing available"

/-- C3, counterexample: with an orientation that mentions a known pattern
but an observation that mentions none, `generate_plan` returns confidence
0.7, while the claim's formula (read against the orientation) yields 0.85 —
the code scans the observation, not the orientation. -/
theorem claim_C3_counterexample :
    (generate_plan 1 "checkout" "default" "no patterns here" c3orient
        []).confidence = 7/10
    ∧ confidenceClaimFromOrientation c3orient
        (generate_plan 1 "checkout" "default" "no patterns here" c3orient
          []).actions = 17/20
    ∧ ((7 : ℚ)/10 ≠ 17/20) := by
  have h1 : strContains (lowerStr "no patterns here") "known pattern"
      = false := by decide
  have h2 : strContains (lowerStr "no patterns here") "unknown pattern"
      = false := by decide
  have h3 : strContains (lowerStr c3orient) "known pattern" = true := by
    decide
  have h4 : strContains (lowerStr c3orient) "unknown pattern" = false := by
    decide
  have hact : (generate_plan 1 "checkout" "default" "no patterns here"
      c3orient []).actions = [defaultRestartAction "checkout" "default"] := by
    decide
  have hrisk : ([defaultRestartAction "checkout" "default"]).any
      (fun a => a.risk_level == "high") = false := by decide
  refine ⟨?_, ?_, by norm_num⟩
  · have hconf : (generate_plan 1 "checkout" "default" "no patterns here"
        c3orient []).confidence
        = calculate_confidence [defaultRestartAction "checkout" "default"]
            "no patterns here" := by
      rfl
    rw [hconf]
    unfold calculate_confidence
    simp only [h1, h2, hrisk, if_false, Bool.false_eq_true]
    rw [ratMin_right _ _ (by norm_num), ratMax_right _ _ (by norm_num)]
  · rw [hact]
    unfold confidenceClaimFromOrientation
    simp only [h3, h4, hrisk, if_true, if_false, Bool.false_eq_true]
    rw [ratMin_right _ _ (by norm_num), ratMax_right _ _ (by norm_num)]
    norm_num

/-- C3 (amended): for every call to `generate_plan`, the plan confidence is
0.7, +0.15 if the **observation** argument mentions "known pattern", -0.2 if
it mentions "unknown pattern", -0.1 if any selected action is high-risk,
clamped to [0.3, 0.95]. -/
theorem claim_C3 (incident_id : Nat)
    (service nspace observation orientation : String)
    (recommended_actions : List String) :
    (generate_plan incident_id service nspace observation orientation
        recommended_actions).confidence
      = confidenceFromObservation observation
          (generate_plan incident_id service nspace observation orientation
            recommended_actions).actions := by
  have h : (generate_plan incident_id service nspace observation orientation
      recommended_actions).confidence
      = calculate_confidence
          (generate_plan incident_id service nspace observation orientation
            recommended_actions).actions observation := rfl
  rw [h]
  unfold calculate_confidence confidenceFromObservation
  by_cases h1 : strContains (lowerStr observation) "known pattern" = true <;>
    by_cases h2 : strContains (lowerStr observation) "unknown pattern"
      = true <;>
    by_cases h3 : ((generate_plan incident_id service nspace observation
        orientation recommended_actions).actions.any
        (fun a => a.risk_level == "high")) = true <;>
    simp only [h1, h2, h3, if_true, if_false, Bool.false_eq_true,
      Bool.not_eq_true] <;>
    exact congrArg (fun q => ratMax (3/10) (ratMin (95/100) q)) (by norm_num)

/-! ## Claim C5 -/

/-- Spec-style recomposition of `_select_actions`: the **first** cause-table
entry (via `List.find?`) whose key — underscores replaced by spaces, or
verbatim — occurs in the lowercased observation contributes up to two
actions; the first two hints are keyword-scanned; then first-occurrence
dedup by action type and a cap of three. -/
def selectSpec (observation : String) (recs : List String) :
    List (ActionType × String) :=
  let fromTable :=
    match CAUSE_ACTION_MAP.find? (fun p =>
        strContains (lowerStr observation) (replaceChar p.1 '_' ' ')
          || strContains (lowerStr observation) p.1) with
    | some p => p.2.take 2
    | none => []
  let fromHints := (recs.take 2).filterMap hintCandidate
  (dedupByType [] (fromTable ++ fromHints)).take 3

/-- The break-on-first-match loop equals the `find?` formulation. -/
theorem scanCauseTable_eq_find (obsLower : String) :
    ∀ (tbl : List (String × List (ActionType × String))),
    scanCauseTable obsLower tbl
      = match tbl.find? (fun p =>
          strContains obsLower (replaceChar p.1 '_' ' ')
            || strContains obsLower p.1) with
        | some p => p.2.take 2
        | none => []
  | [] => rfl
  | (pat, acts) :: rest => by
      by_cases h : (strContains obsLower (replaceChar pat '_' ' ')
          || strContains obsLower pat) = true
      · simp [scanCauseTable, List.find?_cons, h]
      · have hb : (strContains obsLower (replaceChar pat '_' ' ')
            || strContains obsLower pat) = false := by simpa using h
        simp only [scanCauseTable, hb, List.find?_cons, cond_false,
          Bool.false_eq_true, if_false]
        exact scanCauseTable_eq_find obsLower rest

/-- The dedup loop keeps pairwise-distinct action types, none of them
already seen. -/
theorem dedupByType_fst_nodup :
    ∀ (l : List (ActionType × String)) (seen : List ActionType),
    ((dedupByType seen l).map Prod.fst).Nodup
    ∧ ∀ t ∈ (dedupByType seen l).map Prod.fst, t ∉ seen
  | [], _ => ⟨List.nodup_nil, by simp [dedupByType]⟩
  | (t, r) :: rest, seen => by
      by_cases h : t ∈ seen
      · have hb : seen.contains t = true := by simpa using h
        have heq : dedupByType seen ((t, r) :: rest)
            = dedupByType seen rest := by
          simp only [dedupByType, hb, if_true]
        rw [heq]
        exact dedupByType_fst_nodup rest seen
      · have hb : seen.contains t = false := by simpa using h
        have heq : dedupByType seen ((t, r) :: rest)
            = (t, r) :: dedupByType (t :: seen) rest := by
          simp only [dedupByType, hb, Bool.false_eq_true, if_false]
        rw [heq]
        obtain ⟨ih1, ih2⟩ := dedupByType_fst_nodup rest (t :: seen)
        refine ⟨?_, ?_⟩
        · simp only [List.map_cons, List.nodup_cons]
          exact ⟨fun hmem => (ih2 t hmem) (by simp), ih1⟩
        · intro u hu
          simp only [List.map_cons, List.mem_cons] at hu
          rcases hu with rfl | hu
          · exact h
          · intro hus
            exact (ih2 u hu) (by simp [hus])

/-- For a nonempty selection, the plan's actions carry exactly the selected
(type, reasoning) pairs in order. -/
theorem planActions_map_pairs (incident_id : Nat)
    (service nspace observation orientation : String)
    (recs : List String) (h : select_actions observation recs ≠ []) :
    (generate_plan incident_id service nspace observation orientation
        recs).actions.map (fun a => (a.action_type, a.reasoning))
      = select_actions observation recs := by
  unfold generate_plan
  simp only []
  rw [if_neg (by
    simp only [List.isEmpty_eq_false, ne_eq, List.map_eq_nil_iff,
      List.enum_eq_nil]
    simpa using h)]
  rw [List.map_map]
  exact (List.map_congr_left (fun pr _ => rfl)).trans (List.enum_map_snd _)

/-- C5: `_select_actions` equals its spec recomposition; zero candidates
force exactly the default RESTART_POD action with the fixed literal
parameters, otherwise the plan's actions carry exactly the selected
(type, reasoning) pairs in order; plans never exceed three actions and
never repeat an action type. -/
theorem claim_C5 (incident_id : Nat)
    (service nspace observation orientation : String)
    (recommended_actions : List String) :
    select_actions observation recommended_actions
      = selectSpec observation recommended_actions
    ∧ (select_actions observation recommended_actions = [] →
        (generate_plan incident_id service nspace observation orientation
          recommended_actions).actions = [defaultRestartAction service nspace])
    ∧ (select_actions observation recommended_actions ≠ [] →
        (generate_plan incident_id service nspace observation orientation
            recommended_actions).actions.map
            (fun a => (a.action_type, a.reasoning))
          = select_actions observation recommended_actions)
    ∧ (generate_plan incident_id service nspace observation orientation
        recommended_actions).actions.length ≤ 3
    ∧ ((select_actions observation recommended_actions).map
        Prod.fst).Nodup := by
  have hsel : select_actions observation recommended_actions
      = selectSpec observation recommended_actions := by
    unfold select_actions selectSpec
    rw [scanCauseTable_eq_find]
  have hlen : (select_actions observation recommended_actions).length ≤ 3 := by
    unfold select_actions
    exact List.length_take_le 3 _
  refine ⟨hsel, ?_, planActions_map_pairs incident_id service nspace
    observation orientation recommended_actions, ?_, ?_⟩
  · intro h
    unfold generate_plan
    simp [h]
  · by_cases h : select_actions observation recommended_actions = []
    · unfold generate_plan
      simp [h]
    · have hmap := planActions_map_pairs incident_id service nspace
        observation orientation recommended_actions h
      have : ((generate_plan incident_id service nspace observation
          orientation recommended_actions).actions.map
          (fun a => (a.action_type, a.reasoning))).length
          = (select_actions observation recommended_actions).length := by
        rw [hmap]
      rw [List.length_map] at this
      omega
  · unfold select_actions
    simp only []
    exact ((List.take_sublist 3 _).map Prod.fst).nodup
      (dedupByType_fst_nodup _ []).1

/-! ## Additional witnesses -/

/-- C3, witness: the amended confidence rule evaluated at one concrete call. -/
theorem claim_C3_witness :
    (generate_plan 2 "api" "prod" "cpu overload seen" "analysis" []).confidence
      = confidenceFromObservation "cpu overload seen"
          (generate_plan 2 "api" "prod" "cpu overload seen" "analysis"
            []).actions :=
  claim_C3 2 "api" "prod" "cpu overload seen" "analysis" []

/-- C5, witness: the selection rule evaluated at one concrete call. -/
theorem claim_C5_witness :
    select_actions "cpu overload seen" ["please restart it"]
      = selectSpec "cpu overload seen" ["please restart it"]
    ∧ (select_actions "cpu overload seen" ["please restart it"] = [] →
        (generate_plan 2 "api" "prod" "cpu overload seen" "analysis"
          ["please restart it"]).actions = [defaultRestartAction "api" "prod"])
    ∧ (select_actions "cpu overload seen" ["please restart it"] ≠ [] →
        (generate_plan 2 "api" "prod" "cpu overload seen" "analysis"
            ["please restart it"]).actions.map
            (fun a => (a.action_type, a.reasoning))
          = select_actions "cpu overload seen" ["please restart it"])
    ∧ (generate_plan 2 "api" "prod" "cpu overload seen" "analysis"
        ["please restart it"]).actions.length ≤ 3
    ∧ ((select_actions "cpu overload seen" ["please restart it"]).map
        Prod.fst).Nodup :=
  claim_C5 2 "api" "prod" "cpu overload seen" "analysis" ["please restart it"]

/-- C6, witness: the admission characterization evaluated on a concrete
engine and request. -/
theorem claim_C6_witness :
    (trigger_healing c2cfg c2engine c2req 3 = .error .already_healing
      ↔ is_healing c2engine c2req.incident_id = true)
    ∧ (trigger_healing c2cfg c2engine c2req 3 = .error .concurrency_limit
      ↔ is_healing c2engine c2req.incident_id = false
        ∧ c2cfg.max_concurrent_healings ≤ get_active_count c2engine)
    ∧ (trigger_healing c2cfg c2engine c2req 3 = .error .cooldown_active
      ↔ is_healing c2engine c2req.incident_id = false
        ∧ get_active_count c2engine < c2cfg.max_concurrent_healings
        ∧ is_in_cooldown c2engine c2req.target_service 3 = true
        ∧ c2req.force = false)
    ∧ (∀ e1 hid, trigger_healing c2cfg c2engine c2req 3 = .ok (e1, hid) →
        hid = c2engine.nextId ∧ e1.nextId = c2engine.nextId + 1
        ∧ e1.healings.map Prod.fst
            = c2engine.healings.map Prod.fst ++ [hid]
        ∧ e1.healings.length = c2engine.healings.length + 1)
    ∧ rejectHttpStatus .already_healing = 409
    ∧ rejectHttpStatus .concurrency_limit = 429
    ∧ rejectHttpStatus .cooldown_active = 429 :=
  claim_C6 c2cfg c2engine c2req 3

/-- C7, witness: the correlation characterization evaluated on the concrete
two-signal store at the window boundary. -/
theorem claim_C7_witness :
    (((receiveSignal 15 (ingestAll 15 ⟨[], 0⟩ [(Signal.anomaly c1e1, 0)])
        (Signal.anomaly c1e2) 16).action = .correlated) ↔
      ∃ i ∈ (ingestAll 15 ⟨[], 0⟩ [(Signal.anomaly c1e1, 0)]).store,
        (i.status ≠ .resolved ∧ i.status ≠ .failed)
        ∧ i.target_service = (Signal.anomaly c1e2).service
        ∧ i.target_namespace = (Signal.anomaly c1e2).nspace
        ∧ 16 - 15 ≤ i.created_at) :=
  (claim_C7 15 (ingestAll 15 ⟨[], 0⟩ [(Signal.anomaly c1e1, 0)])
    (Signal.anomaly c1e2) 16).1

/-- C9, witness: the always-empty-archive facts evaluated on a concrete
operation trace (a register, a full loop, a cancel and a trigger). -/
theorem claim_C9_witness :
    (applyOps c2cfg (fun _ => true) Engine.init
        [.register 1 0, .runLoop 0 c2req 1, .cancel 0 2,
         .trigger c2req 3]).history = []
    ∧ get_success_rate (applyOps c2cfg (fun _ => true) Engine.init
        [.register 1 0, .runLoop 0 c2req 1, .cancel 0 2,
         .trigger c2req 3]) = 0
    ∧ get_average_duration (applyOps c2cfg (fun _ => true) Engine.init
        [.register 1 0, .runLoop 0 c2req 1, .cancel 0 2,
         .trigger c2req 3]) = 0
    ∧ get_total_count (applyOps c2cfg (fun _ => true) Engine.init
        [.register 1 0, .runLoop 0 c2req 1, .cancel 0 2,
         .trigger c2req 3])
      = (applyOps c2cfg (fun _ => true) Engine.init
          [.register 1 0, .runLoop 0 c2req 1, .cancel 0 2,
           .trigger c2req 3]).healings.length
    ∧ (applyOps c2cfg (fun _ => true) Engine.init
        [.register 1 0, .runLoop 0 c2req 1, .cancel 0 2,
         .trigger c2req 3]).healings.length
      = (applyOps c2cfg (fun _ => true) Engine.init
          [.register 1 0, .runLoop 0 c2req 1, .cancel 0 2,
           .trigger c2req 3]).nextId :=
  claim_C9 c2cfg (fun _ => true)
    [.register 1 0, .runLoop 0 c2req 1, .cancel 0 2, .trigger c2req 3]

end AutoHeal
